import Mathlib

/-!
Verification of the frame pipeline and session lifecycle of the LSFL
X11/Vulkan window-capture upscaler (src/main.cpp), as a shallow embedding.

Pixel memory is modelled as functions from byte offsets to byte values.
Vulkan and X11 handles are modelled as natural numbers, with 0 standing for
a null handle. The opaque upscale-accelerator library (create / dispatch /
destroy of an accelerator context) is external to the repository and is
modelled from the spec as a fresh-handle allocator.
-/

namespace LSFL

/-! ### Capture snapshots (XImage) -/

/-- One captured XImage: pixel width/height, bytes_per_line row stride,
bits_per_pixel, and the pixel bytes as a function from byte offset. -/
structure XImageM where
  width : Nat
  height : Nat
  bytesPerLine : Nat
  bitsPerPixel : Nat
  data : Nat → Nat

/-- Byte-wise model of memcpy(dst + dOff, src + sOff, n). -/
def memcpyBytes (dst : Nat → Nat) (src : Nat → Nat) (dOff sOff n : Nat) : Nat → Nat :=
  fun i => if dOff ≤ i ∧ i < dOff + n then src (sOff + (i - dOff)) else dst i

/-- The row-copy loop of upload_capture_to_staging: starting from an
all-zero buffer (the memset), copy n rows of cnt bytes each, with
destination stride dstStride and source stride srcStride. -/
def rowsCopy (src : Nat → Nat) (dstStride srcStride cnt n : Nat) : Nat → Nat :=
  (List.range n).foldl
    (fun dst y => memcpyBytes dst src (y * dstStride) (y * srcStride) cnt)
    (fun _ => 0)

/-- upload_capture_to_staging from src/main.cpp: memset the whole staging
buffer to zero, then copy min(captureExtent, image) columns over
min(captureExtent, image) rows, reading each source row at the image's
bytes_per_line stride and writing at a stride of 4 * captureExtent.width. -/
def upload_capture_to_staging (capW capH : Nat) (img : XImageM) : Nat → Nat :=
  rowsCopy img.data (capW * 4) img.bytesPerLine
    (min capW img.width * 4) (min capH img.height)

/-! ### Layout transitions (transition_image_layout) -/

/-- The Vulkan image layouts that occur in the program. -/
inductive VkImageLayout where
  | undefined
  | transferDstOptimal
  | transferSrcOptimal
  | shaderReadOnlyOptimal
  | general
  | presentSrcKHR
  | colorAttachmentOptimal
  deriving DecidableEq, Fintype

def VK_ACCESS_TRANSFER_WRITE_BIT : Nat := 4096
def VK_ACCESS_TRANSFER_READ_BIT : Nat := 2048
def VK_ACCESS_SHADER_READ_BIT : Nat := 32
def VK_ACCESS_SHADER_WRITE_BIT : Nat := 64
def VK_PIPELINE_STAGE_TOP_OF_PIPE_BIT : Nat := 1
def VK_PIPELINE_STAGE_TRANSFER_BIT : Nat := 4096
def VK_PIPELINE_STAGE_COMPUTE_SHADER_BIT : Nat := 2048
def VK_PIPELINE_STAGE_ALL_COMMANDS_BIT : Nat := 65536

/-- The access-mask / stage-mask tuple a barrier is emitted with. -/
structure BarrierParams where
  srcAccessMask : Nat
  dstAccessMask : Nat
  srcStage : Nat
  dstStage : Nat
  deriving DecidableEq

/-- transition_image_layout from src/main.cpp: the if/else chain mapping an
(oldLayout, newLayout) pair to the barrier parameters, with the final else
branch emitting zero access masks and all-commands stages. -/
def transition_image_layout (oldLayout newLayout : VkImageLayout) : BarrierParams :=
  if oldLayout = .undefined ∧ newLayout = .transferDstOptimal then
    ⟨0, VK_ACCESS_TRANSFER_WRITE_BIT,
      VK_PIPELINE_STAGE_TOP_OF_PIPE_BIT, VK_PIPELINE_STAGE_TRANSFER_BIT⟩
  else if oldLayout = .transferDstOptimal ∧ newLayout = .shaderReadOnlyOptimal then
    ⟨VK_ACCESS_TRANSFER_WRITE_BIT, VK_ACCESS_SHADER_READ_BIT,
      VK_PIPELINE_STAGE_TRANSFER_BIT, VK_PIPELINE_STAGE_COMPUTE_SHADER_BIT⟩
  else if oldLayout = .undefined ∧ newLayout = .general then
    ⟨0, VK_ACCESS_SHADER_WRITE_BIT,
      VK_PIPELINE_STAGE_TOP_OF_PIPE_BIT, VK_PIPELINE_STAGE_COMPUTE_SHADER_BIT⟩
  else if oldLayout = .transferDstOptimal ∧ newLayout = .transferSrcOptimal then
    ⟨VK_ACCESS_TRANSFER_WRITE_BIT, VK_ACCESS_TRANSFER_READ_BIT,
      VK_PIPELINE_STAGE_TRANSFER_BIT, VK_PIPELINE_STAGE_TRANSFER_BIT⟩
  else if oldLayout = .transferSrcOptimal ∧ newLayout = .transferDstOptimal then
    ⟨VK_ACCESS_TRANSFER_READ_BIT, VK_ACCESS_TRANSFER_WRITE_BIT,
      VK_PIPELINE_STAGE_TRANSFER_BIT, VK_PIPELINE_STAGE_TRANSFER_BIT⟩
  else if oldLayout = .shaderReadOnlyOptimal ∧ newLayout = .transferDstOptimal then
    ⟨VK_ACCESS_SHADER_READ_BIT, VK_ACCESS_TRANSFER_WRITE_BIT,
      VK_PIPELINE_STAGE_COMPUTE_SHADER_BIT, VK_PIPELINE_STAGE_TRANSFER_BIT⟩
  else
    ⟨0, 0, VK_PIPELINE_STAGE_ALL_COMMANDS_BIT, VK_PIPELINE_STAGE_ALL_COMMANDS_BIT⟩

/-- The six (oldLayout, newLayout) pairs the helper handles explicitly. -/
def handledTransition (oldLayout newLayout : VkImageLayout) : Prop :=
  (oldLayout = .undefined ∧ newLayout = .transferDstOptimal) ∨
  (oldLayout = .transferDstOptimal ∧ newLayout = .shaderReadOnlyOptimal) ∨
  (oldLayout = .undefined ∧ newLayout = .general) ∨
  (oldLayout = .transferDstOptimal ∧ newLayout = .transferSrcOptimal) ∨
  (oldLayout = .transferSrcOptimal ∧ newLayout = .transferDstOptimal) ∨
  (oldLayout = .shaderReadOnlyOptimal ∧ newLayout = .transferDstOptimal)

instance (o n : VkImageLayout) : Decidable (handledTransition o n) := by
  unfold handledTransition
  infer_instance

/-! ### Accelerator context lifecycle (FSRContext) -/

/-- Process-global accelerator state: the function-local static
s_firstFrame of dispatch_fsr (initialized once per process), the current
context handle held by the FSRContext (0 = null), and — modelled from the
spec for the opaque external accelerator library — a fresh-handle
allocator together with the set of handles already passed to
DestroyContext. -/
structure AccelState where
  sFirstFrame : Bool
  ctx : Nat
  nextHandle : Nat
  destroyedSet : Nat → Bool

/-- initFSR from src/main.cpp. Modelled from the spec for the external
library call: a successful CreateContext yields a distinct, non-null
handle (sections 4.2 and 8 of the spec); the allocator never re-issues
a handle. -/
def initFSR (st : AccelState) : AccelState :=
  { st with ctx := st.nextHandle + 1, nextHandle := st.nextHandle + 1 }

/-- The context teardown of cleanup_fsr from src/main.cpp: when the
context is non-null, DestroyContext is called on it and the field is set
back to null; a null context is skipped. -/
def cleanup_fsr_ctx (st : AccelState) : AccelState :=
  if st.ctx = 0 then st
  else { st with ctx := 0, destroyedSet := fun h => (h == st.ctx) || st.destroyedSet h }

/-- dispatch_fsr from src/main.cpp: early-return when the context is null;
otherwise dispatch against the current context supplying
reset = s_firstFrame, then set the static to false. Returns the
(handle, reset flag) pair actually dispatched, or none when the dispatch
was skipped. -/
def dispatch_fsr (st : AccelState) : AccelState × Option (Nat × Bool) :=
  if st.ctx = 0 then (st, none)
  else ({ st with sFirstFrame := false }, some (st.ctx, st.sFirstFrame))

/-- The two frame-loop operations that touch the accelerator context: a
rebuild (the ConfigureNotify and OutOfDate/Suboptimal paths of
run_session: cleanup_fsr followed by initFSR, both before the next
dispatch) and a frame dispatch. -/
inductive AccelOp where
  | rebuild
  | frame

/-- Run a list of accelerator operations; the Bool records whether any
dispatch targeted a handle that had been destroyed before that dispatch. -/
def runAccel (st : AccelState) : List AccelOp → AccelState × Bool
  | [] => (st, false)
  | AccelOp.rebuild :: ops => runAccel (initFSR (cleanup_fsr_ctx st)) ops
  | AccelOp.frame :: ops =>
    let r := dispatch_fsr st
    let bad := match r.2 with
      | some hb => st.destroyedSet hb.1
      | none => false
    let rest := runAccel r.1 ops
    (rest.1, bad || rest.2)

/-- The process-start accelerator state: the static is true, no context
exists, no handle was ever issued or destroyed. -/
def accelStart : AccelState := ⟨true, 0, 0, fun _ => false⟩

/-- Invariant tying the context handle to the allocator: the context was
issued by the allocator, every destroyed handle is non-null and was
issued, and the current context (when non-null) is not destroyed. -/
def AccelInv (st : AccelState) : Prop :=
  st.ctx ≤ st.nextHandle ∧
  (∀ h, st.destroyedSet h = true → 0 < h ∧ h ≤ st.nextHandle) ∧
  (st.ctx ≠ 0 → st.destroyedSet st.ctx = false)

theorem accelInv_initFSR (st : AccelState) (h : AccelInv st) : AccelInv (initFSR st) := by
  obtain ⟨h1, h2, h3⟩ := h
  refine ⟨Nat.le_refl _, fun hh hm => ?_, fun _ => ?_⟩
  · exact ⟨(h2 hh hm).1, Nat.le_succ_of_le (h2 hh hm).2⟩
  · by_contra hc
    have := h2 _ (by simpa [initFSR] using Bool.of_not_eq_false hc)
    simp [initFSR] at this

theorem accelInv_cleanup (st : AccelState) (h : AccelInv st) :
    AccelInv (cleanup_fsr_ctx st) := by
  obtain ⟨h1, h2, h3⟩ := h
  unfold cleanup_fsr_ctx
  by_cases hz : st.ctx = 0
  · simp [hz]
    exact ⟨h1, h2, h3⟩
  · simp [hz]
    refine ⟨Nat.zero_le _, fun hh hm => ?_, fun hc => absurd rfl hc⟩
    rcases Bool.or_eq_true_iff.mp hm with he | hd
    · have : hh = st.ctx := by simpa using he
      subst this
      exact ⟨Nat.pos_of_ne_zero hz, h1⟩
    · exact h2 hh hd

theorem runAccel_inv (ops : List AccelOp) (st : AccelState) (h : AccelInv st) :
    AccelInv (runAccel st ops).1 ∧ (runAccel st ops).2 = false := by
  induction ops generalizing st with
  | nil => exact ⟨h, rfl⟩
  | cons op ops ih =>
    cases op with
    | rebuild => exact ih _ (accelInv_initFSR _ (accelInv_cleanup _ h))
    | frame =>
      unfold runAccel dispatch_fsr
      by_cases hz : st.ctx = 0
      · simp only [hz, if_pos rfl]
        have := ih st h
        simpa using this
      · simp only [if_neg hz]
        have hnd : st.destroyedSet st.ctx = false := h.2.2 hz
        have hst : AccelInv { st with sFirstFrame := false } := h
        have := ih _ hst
        simp only [hnd]
        simpa using this

/-- C5: along any run of rebuilds and dispatches from session start, no
dispatch ever targets a handle destroyed earlier, and performing the
extent-change rebuild (destroy followed by create, both before the next
dispatch) yields a context handle that is distinct from the previous one
and non-null. -/
theorem c5_accel_context_lifecycle (ops : List AccelOp) :
    (initFSR (cleanup_fsr_ctx (runAccel (initFSR accelStart) ops).1)).ctx
      ≠ (runAccel (initFSR accelStart) ops).1.ctx ∧
    (initFSR (cleanup_fsr_ctx (runAccel (initFSR accelStart) ops).1)).ctx ≠ 0 ∧
    (runAccel (initFSR accelStart) ops).2 = false := by
  have hinv0 : AccelInv (initFSR accelStart) := by
    refine ⟨Nat.le_refl _, fun h hm => ?_, fun _ => rfl⟩
    simp [initFSR, accelStart] at hm
  obtain ⟨hinv, hok⟩ := runAccel_inv ops _ hinv0
  set st := (runAccel (initFSR accelStart) ops).1 with hst
  have hcl : (cleanup_fsr_ctx st).nextHandle = st.nextHandle := by
    unfold cleanup_fsr_ctx
    by_cases hz : st.ctx = 0 <;> simp [hz]
  refine ⟨?_, ?_, hok⟩
  · have : (initFSR (cleanup_fsr_ctx st)).ctx = st.nextHandle + 1 := by
      simp [initFSR, hcl]
    rw [this]
    have := hinv.1
    omega
  · have : (initFSR (cleanup_fsr_ctx st)).ctx = st.nextHandle + 1 := by
      simp [initFSR, hcl]
    omega

/-- C1 (evaluation of the code at the failing input): the very first
dispatch of the process supplies reset = true, but after a mid-session
rebuild destroys and re-creates the accelerator context, the first
dispatch against the fresh context supplies reset = false, and so does
the first dispatch of a second session started after toggle-off —
because s_firstFrame is a function-local static initialized once per
process, not per (re)creation. -/
theorem c1_reset_only_on_first_process_dispatch :
    (dispatch_fsr (initFSR accelStart)).2 = some (1, true) ∧
    (dispatch_fsr (initFSR (cleanup_fsr_ctx (dispatch_fsr (initFSR accelStart)).1))).2
      = some (2, false) ∧
    (dispatch_fsr (initFSR (cleanup_fsr_ctx (dispatch_fsr (initFSR
      (cleanup_fsr_ctx (dispatch_fsr (initFSR accelStart)).1))).1))).2
      = some (3, false) := by
  refine ⟨rfl, rfl, rfl⟩

/-! ### One frame-loop iteration of run_session -/

/-- The host-side actions a frame-loop iteration can perform, in the
order run_session performs them. -/
inductive FrameAction where
  | updatePixmap
  | captureAct
  | uploadStaging
  | waitFence
  | resetFence
  | acquireAct
  | deviceWaitIdle
  | cleanupFsrAct
  | recreateSwapchainAct
  | createFsrImagesAct
  | initFsrAct
  | recordCmds
  | submitQueue
  | presentAct
  deriving DecidableEq

inductive AcquireRes where
  | success
  | outOfDate
  | suboptimal
  | errorOther
  deriving DecidableEq

inductive PresentRes where
  | success
  | outOfDate
  | suboptimal
  | errorOther
  deriving DecidableEq

inductive IterOutcome where
  | nextIteration
  | exitLoop
  deriving DecidableEq

/-- capture_frame from src/main.cpp: the capture fails when XGetImage
returns no image or when the returned image is not 32 bits per pixel. -/
def capture_frame (img : Option XImageM) : Bool :=
  match img with
  | none => false
  | some im => im.bitsPerPixel == 32

/-- The body of one run_session frame-loop iteration after the event
drain (src/main.cpp lines 1558-1629), as the ordered list of host
actions it performs, given the capture result and the acquire and
present outcomes the platform reports. -/
def frame_iteration (cap : Option XImageM) (acq : AcquireRes) (pres : PresentRes) :
    List FrameAction × IterOutcome :=
  if capture_frame cap = false then
    ([FrameAction.updatePixmap, FrameAction.captureAct], IterOutcome.nextIteration)
  else
    let pre : List FrameAction :=
      [FrameAction.updatePixmap, FrameAction.captureAct, FrameAction.uploadStaging,
       FrameAction.waitFence, FrameAction.resetFence, FrameAction.acquireAct]
    match acq with
    | AcquireRes.outOfDate | AcquireRes.suboptimal =>
        (pre ++ [FrameAction.deviceWaitIdle, FrameAction.cleanupFsrAct,
                 FrameAction.recreateSwapchainAct, FrameAction.createFsrImagesAct,
                 FrameAction.initFsrAct], IterOutcome.nextIteration)
    | AcquireRes.errorOther => (pre, IterOutcome.exitLoop)
    | AcquireRes.success =>
        let full := pre ++ [FrameAction.recordCmds, FrameAction.submitQueue,
                            FrameAction.presentAct]
        match pres with
        | PresentRes.outOfDate | PresentRes.suboptimal => (full, IterOutcome.nextIteration)
        | PresentRes.errorOther => (full, IterOutcome.exitLoop)
        | PresentRes.success => (full, IterOutcome.nextIteration)

/-- C2 (evaluation of the code at the failing input): on an iteration
with a successful capture the staging upload happens strictly before the
in-flight fence wait — upload_capture_to_staging runs before
vkWaitForFences in run_session — so the CPU mutates the staging buffer
while the previous frame's GPU copy out of that buffer may still be in
flight. The recorded action order makes this explicit. -/
theorem c2_staging_upload_before_fence_wait :
    (frame_iteration (some ⟨800, 600, 3200, 32, fun _ => 0⟩)
        AcquireRes.success PresentRes.success).1 =
      [FrameAction.updatePixmap, FrameAction.captureAct, FrameAction.uploadStaging,
       FrameAction.waitFence, FrameAction.resetFence, FrameAction.acquireAct,
       FrameAction.recordCmds, FrameAction.submitQueue, FrameAction.presentAct] :=
  rfl

/-- C8: when the capture fails (the read returned no image, or an image
that is not 32 bits per pixel), the iteration performs no staging
upload, no command recording, no submission, no presentation and no
teardown: its only actions are the pixmap re-query and the failed
capture, and the frame loop continues with the next iteration. -/
theorem c8_capture_failure_skips_frame
    (cap : Option XImageM) (acq : AcquireRes) (pres : PresentRes)
    (h : capture_frame cap = false) :
    (frame_iteration cap acq pres).1 = [FrameAction.updatePixmap, FrameAction.captureAct] ∧
    FrameAction.uploadStaging ∉ (frame_iteration cap acq pres).1 ∧
    FrameAction.recordCmds ∉ (frame_iteration cap acq pres).1 ∧
    FrameAction.submitQueue ∉ (frame_iteration cap acq pres).1 ∧
    FrameAction.presentAct ∉ (frame_iteration cap acq pres).1 ∧
    FrameAction.cleanupFsrAct ∉ (frame_iteration cap acq pres).1 ∧
    (frame_iteration cap acq pres).2 = IterOutcome.nextIteration := by
  have he : frame_iteration cap acq pres =
      ([FrameAction.updatePixmap, FrameAction.captureAct], IterOutcome.nextIteration) := by
    unfold frame_iteration
    rw [h]
    simp
  rw [he]
  refine ⟨rfl, ?_, ?_, ?_, ?_, ?_, rfl⟩ <;> decide

/-- Witness for C8: a read that returns no image skips the frame. -/
theorem c8_witness :
    capture_frame none = false ∧
    (frame_iteration none AcquireRes.success PresentRes.success).1
      = [FrameAction.updatePixmap, FrameAction.captureAct] ∧
    (frame_iteration none AcquireRes.success PresentRes.success).2
      = IterOutcome.nextIteration := by
  have h := c8_capture_failure_skips_frame none AcquireRes.success PresentRes.success rfl
  exact ⟨rfl, h.1, h.2.2.2.2.2.2⟩

/-! ### Capture-source resize handling (update_target_pixmap_if_needed) -/

/-- The X11-side capture state: the tracked capture size, the named
pixmap handle (0 = none), and a counter modelling
XCompositeNameWindowPixmap issuing a fresh pixmap handle. -/
structure X11Capture where
  capW : Nat
  capH : Nat
  targetPixmap : Nat
  pixmapCounter : Nat
  deriving DecidableEq

/-- The Vulkan-side resources whose extents matter to the capture-resize
claim: the extent the staging buffer was created with, the extent the
capture-resolution image was created with, the swapchain handle and its
extent. -/
structure VkResources where
  stagingExtent : Nat × Nat
  captureImageExtent : Nat × Nat
  swapchain : Nat
  swapExtent : Nat × Nat
  deriving DecidableEq

/-- update_target_pixmap_if_needed from src/main.cpp: given the freshly
queried geometry of the target window (none when XGetWindowAttributes
fails), when the size changed it updates the tracked capture size, frees
the old named pixmap and names a fresh one; otherwise it does nothing. -/
def update_target_pixmap_if_needed (query : Option (Nat × Nat)) (xc : X11Capture) :
    X11Capture :=
  match query with
  | none => xc
  | some wh =>
    if wh.1 = xc.capW ∧ wh.2 = xc.capH then xc
    else
      { capW := wh.1, capH := wh.2,
        targetPixmap := xc.pixmapCounter + 1, pixmapCounter := xc.pixmapCounter + 1 }

/-- The capture-source resize check as it sits in run_session's frame
loop: it is passed no Vulkan state, and no other statement on the
non-rebuild path modifies the staging buffer, the capture-resolution
image or the swapchain, so those ride through unchanged. -/
def source_resize_step (query : Option (Nat × Nat)) (xc : X11Capture)
    (vc : VkResources) : X11Capture × VkResources :=
  (update_target_pixmap_if_needed query xc, vc)

/-- C3 counterexample: with the session created at capture extent
800x600, a mid-session source resize to 640x480 updates the tracked
capture size and renames the pixmap, and the swapchain is indeed
untouched — but the staging buffer and the capture-resolution image keep
their 800x600 creation extents instead of being resized to the new
capture extent, refuting the claim as stated. -/
theorem c3_counterexample :
    (source_resize_step (some (640, 480)) ⟨800, 600, 1, 1⟩
        ⟨(800, 600), (800, 600), 7, (1920, 1080)⟩).1.capW = 640 ∧
    (source_resize_step (some (640, 480)) ⟨800, 600, 1, 1⟩
        ⟨(800, 600), (800, 600), 7, (1920, 1080)⟩).1.capH = 480 ∧
    (source_resize_step (some (640, 480)) ⟨800, 600, 1, 1⟩
        ⟨(800, 600), (800, 600), 7, (1920, 1080)⟩).1.targetPixmap ≠ 1 ∧
    (source_resize_step (some (640, 480)) ⟨800, 600, 1, 1⟩
        ⟨(800, 600), (800, 600), 7, (1920, 1080)⟩).2.stagingExtent ≠ (640, 480) ∧
    (source_resize_step (some (640, 480)) ⟨800, 600, 1, 1⟩
        ⟨(800, 600), (800, 600), 7, (1920, 1080)⟩).2.captureImageExtent ≠ (640, 480) ∧
    (source_resize_step (some (640, 480)) ⟨800, 600, 1, 1⟩
        ⟨(800, 600), (800, 600), 7, (1920, 1080)⟩).2.swapchain = 7 := by
  decide

/-- C3 (amended): when the capture source window's extent changes
mid-session, the tracked capture extent is updated and the capture
source is rebound (the old pixmap is freed and a fresh one named), while
the presentation surface — and likewise the transfer buffer and the
capture-resolution image — are left exactly as they were; subsequent
ingests clamp to the transfer buffer's creation extent and zero-fill. -/
theorem c3_source_resize_rebinds_without_touching_vk
    (newW newH : Nat) (xc : X11Capture) (vc : VkResources)
    (h : ¬ (newW = xc.capW ∧ newH = xc.capH)) :
    source_resize_step (some (newW, newH)) xc vc =
      (⟨newW, newH, xc.pixmapCounter + 1, xc.pixmapCounter + 1⟩, vc) := by
  simp [source_resize_step, update_target_pixmap_if_needed, h]

/-- Witness for C3's amended theorem at the 800x600 to 640x480 resize. -/
theorem c3_witness :
    ¬ ((640:Nat) = 800 ∧ (480:Nat) = 600) ∧
    source_resize_step (some (640, 480)) ⟨800, 600, 1, 1⟩
        ⟨(800, 600), (800, 600), 7, (1920, 1080)⟩ =
      (⟨640, 480, 2, 2⟩, ⟨(800, 600), (800, 600), 7, (1920, 1080)⟩) :=
  ⟨by decide,
    c3_source_resize_rebinds_without_touching_vk 640 480 ⟨800, 600, 1, 1⟩
      ⟨(800, 600), (800, 600), 7, (1920, 1080)⟩ (by decide)⟩

/-! ### Session-ending events (run_session event drain and main) -/

/-- The run_session loop flags: running (the session continues) and
app_exit (the enclosing application must exit after the session). -/
structure LoopFlags where
  running : Bool
  appExit : Bool
  deriving DecidableEq

/-- The window-system events run_session's event drain inspects. -/
inductive XEv where
  | destroyNotify (w : Nat)
  | keyPress (isToggleHotkey : Bool)
  | configureNotify (w : Nat)
  | otherEvent

/-- The event switch of run_session (src/main.cpp lines 1527-1555): a
DestroyNotify for any window ends the session and additionally requests
application exit only when the destroyed window is the main application
window; the toggle hotkey ends the session; a ConfigureNotify on the
presentation window triggers the swapchain and accelerator rebuild. The
second component records whether the rebuild ran. -/
def handle_session_event (mainWindow vkWindow : Nat) (s : LoopFlags) (ev : XEv) :
    LoopFlags × Bool :=
  match ev with
  | XEv.destroyNotify w =>
      ({ running := false,
         appExit := if w = mainWindow then true else s.appExit }, false)
  | XEv.keyPress hk =>
      (if hk then { s with running := false } else s, false)
  | XEv.configureNotify w => (s, decide (w = vkWindow))
  | XEv.otherEvent => (s, false)

/-- main's decision after a session returns (src/main.cpp lines
1661-1666): the application keeps running unless run_session reported
want_exit. -/
def main_after_session (appRunning : Bool) (wantExit : Bool) : Bool :=
  if wantExit then false else appRunning

/-- C6 counterexample: with main window 1 and presentation window 2, a
DestroyNotify for the presentation window ends the session but leaves
app_exit false, so the enclosing application keeps running — the claim
says destruction of the presentation window must also make the
application exit. An unrecoverable acquire error is moreover a third way
the frame loop ends. -/
theorem c6_counterexample :
    (handle_session_event 1 2 ⟨true, false⟩ (XEv.destroyNotify 2)).1.running = false ∧
    (handle_session_event 1 2 ⟨true, false⟩ (XEv.destroyNotify 2)).1.appExit = false ∧
    main_after_session true
      (handle_session_event 1 2 ⟨true, false⟩ (XEv.destroyNotify 2)).1.appExit = true ∧
    (frame_iteration (some ⟨800, 600, 3200, 32, fun _ => 0⟩) AcquireRes.errorOther
        PresentRes.success).2 = IterOutcome.exitLoop :=
  ⟨rfl, rfl, rfl, rfl⟩

/-- C6 (amended): an active session ends when the toggle hotkey is
pressed again (app_exit stays false: the application keeps running), or
when a DestroyNotify arrives for any window — with app_exit set exactly
when the destroyed window is the main application window, so destroying
the presentation window ends the session without exiting the
application — or when an unrecoverable acquire or present error occurs;
other events leave the session running, and after the session the
application exits exactly when app_exit was set. -/
theorem c6_session_end_cases (mainWindow vkWindow w : Nat) :
    (handle_session_event mainWindow vkWindow ⟨true, false⟩ (XEv.destroyNotify w)).1
      = ⟨false, decide (w = mainWindow)⟩ ∧
    (handle_session_event mainWindow vkWindow ⟨true, false⟩ (XEv.keyPress true)).1
      = ⟨false, false⟩ ∧
    (handle_session_event mainWindow vkWindow ⟨true, false⟩ (XEv.keyPress false)).1.running
      = true ∧
    (handle_session_event mainWindow vkWindow ⟨true, false⟩ (XEv.configureNotify w)).1.running
      = true ∧
    (handle_session_event mainWindow vkWindow ⟨true, false⟩ XEv.otherEvent).1.running = true ∧
    main_after_session true false = true ∧
    main_after_session true true = false ∧
    (frame_iteration (some ⟨800, 600, 3200, 32, fun _ => 0⟩) AcquireRes.errorOther
        PresentRes.success).2 = IterOutcome.exitLoop ∧
    (frame_iteration (some ⟨800, 600, 3200, 32, fun _ => 0⟩) AcquireRes.success
        PresentRes.errorOther).2 = IterOutcome.exitLoop := by
  refine ⟨?_, rfl, rfl, rfl, rfl, rfl, rfl, rfl, rfl⟩
  by_cases hw : w = mainWindow <;> simp [handle_session_event, hw]

/-! ### Cleanup of session resources (cleanup_fsr) -/

/-- The handle fields cleanup_fsr touches (0 = null handle). -/
structure FsrHandles where
  upscalingContext : Nat
  inputColorView : Nat
  inputColorImage : Nat
  inputColorMemory : Nat
  outputColorView : Nat
  outputColorImage : Nat
  outputColorMemory : Nat
  motionVectorView : Nat
  motionVectorImage : Nat
  motionVectorMemory : Nat
  depthView : Nat
  depthImage : Nat
  depthMemory : Nat
  captureColorImage : Nat
  captureColorMemory : Nat
  deriving DecidableEq

/-- The destroy calls cleanup_fsr can issue to the device or library. -/
inductive DestroyCall where
  | destroyContext (h : Nat)
  | destroyImageView (h : Nat)
  | destroyImage (h : Nat)
  | freeMemory (h : Nat)
  deriving DecidableEq

/-- One guarded destroy: a null handle is skipped, not dereferenced. -/
def destroyIf (h : Nat) (mk : Nat → DestroyCall) : List DestroyCall :=
  if h = 0 then [] else [mk h]

/-- cleanup_fsr from src/main.cpp (lines 1052-1079): every destroy is
guarded by a null check, but only the accelerator context and the
captureColorImage and captureColorMemory fields are set back to null
afterwards; the view, image and memory fields of the input, output,
motion-vector and depth resources keep their now-stale handle values.
Returns the new state and the ordered destroy calls issued. -/
def cleanup_fsr (s : FsrHandles) : FsrHandles × List DestroyCall :=
  ({ s with upscalingContext := 0, captureColorImage := 0, captureColorMemory := 0 },
    destroyIf s.upscalingContext DestroyCall.destroyContext ++
    destroyIf s.inputColorView DestroyCall.destroyImageView ++
    destroyIf s.inputColorImage DestroyCall.destroyImage ++
    destroyIf s.inputColorMemory DestroyCall.freeMemory ++
    destroyIf s.outputColorView DestroyCall.destroyImageView ++
    destroyIf s.outputColorImage DestroyCall.destroyImage ++
    destroyIf s.outputColorMemory DestroyCall.freeMemory ++
    destroyIf s.motionVectorView DestroyCall.destroyImageView ++
    destroyIf s.motionVectorImage DestroyCall.destroyImage ++
    destroyIf s.motionVectorMemory DestroyCall.freeMemory ++
    destroyIf s.depthView DestroyCall.destroyImageView ++
    destroyIf s.depthImage DestroyCall.destroyImage ++
    destroyIf s.depthMemory DestroyCall.freeMemory ++
    destroyIf s.captureColorImage DestroyCall.destroyImage ++
    destroyIf s.captureColorMemory DestroyCall.freeMemory)

/-- C7 (evaluation of the code at the failing input): on a fully
constructed session state, the first cleanup_fsr destroys the input
color view (handle 2); calling cleanup_fsr a second time issues a
destroy for the very same handle again, because the field was never set
back to null — the second call is not a no-op and the destruction is
not idempotent. (The partially-constructed direction does hold: an
all-null state yields no destroy call at all.) -/
theorem c7_cleanup_fsr_not_idempotent :
    DestroyCall.destroyImageView 2 ∈
      (cleanup_fsr ⟨1, 2, 3, 4, 5, 6, 7, 8, 9, 10, 11, 12, 13, 14, 15⟩).2 ∧
    DestroyCall.destroyImageView 2 ∈
      (cleanup_fsr (cleanup_fsr ⟨1, 2, 3, 4, 5, 6, 7, 8, 9, 10, 11, 12, 13, 14, 15⟩).1).2 ∧
    (cleanup_fsr (cleanup_fsr ⟨1, 2, 3, 4, 5, 6, 7, 8, 9, 10, 11, 12, 13, 14, 15⟩).1).2 ≠ [] ∧
    (cleanup_fsr (cleanup_fsr ⟨1, 2, 3, 4, 5, 6, 7, 8, 9, 10, 11, 12, 13, 14, 15⟩).1).1 =
      (cleanup_fsr ⟨1, 2, 3, 4, 5, 6, 7, 8, 9, 10, 11, 12, 13, 14, 15⟩).1 ∧
    (cleanup_fsr ⟨0, 0, 0, 0, 0, 0, 0, 0, 0, 0, 0, 0, 0, 0, 0⟩).2 = [] := by
  decide

/-! ### The per-session frame counter (run_session, record_upscale_and_present) -/

/-- The two loop operations that matter to the frame counter: recording a
frame (record_upscale_and_present is invoked with frameCount, which is
then post-incremented) and a mid-session rebuild (the ConfigureNotify or
OutOfDate/Suboptimal path), which does not touch frameCount. -/
inductive SessionOp where
  | recordFrame
  | rebuildSwap
  deriving DecidableEq

/-- run_session's frameCount after processing a list of loop operations
from session start: it starts at 0, is incremented at each record, and
is untouched by rebuilds. -/
def frameCountAfter (tr : List SessionOp) : Nat :=
  tr.foldl (fun n op => match op with
    | SessionOp.recordFrame => n + 1
    | SessionOp.rebuildSwap => n) 0

/-- The oldLayout record_upscale_and_present passes for the
capture-resolution image (src/main.cpp lines 1100-1109). -/
def capture_old_layout (frameCount : Nat) : VkImageLayout :=
  if frameCount = 0 then VkImageLayout.undefined else VkImageLayout.transferSrcOptimal

/-- The oldLayout record_upscale_and_present passes for the input color
image (src/main.cpp lines 1141-1150). -/
def input_old_layout (frameCount : Nat) : VkImageLayout :=
  if frameCount = 0 then VkImageLayout.undefined else VkImageLayout.shaderReadOnlyOptimal

theorem frameCountAfter_eq_count (tr : List SessionOp) :
    frameCountAfter tr = tr.count SessionOp.recordFrame := by
  suffices h : ∀ n : Nat,
      tr.foldl (fun n op => match op with
        | SessionOp.recordFrame => n + 1
        | SessionOp.rebuildSwap => n) n = n + tr.count SessionOp.recordFrame by
    simpa [frameCountAfter] using h 0
  induction tr with
  | nil => intro n; simp
  | cons op tr ih =>
    intro n
    cases op with
    | recordFrame =>
      simp [List.count_cons, ih]
      omega
    | rebuildSwap => simp [List.count_cons, ih]

theorem frameCountAfter_append_rebuild (tr : List SessionOp) :
    frameCountAfter (tr ++ [SessionOp.rebuildSwap]) = frameCountAfter tr := by
  unfold frameCountAfter
  rw [List.foldl_append]
  rfl

/-- C10: the per-session frame counter is not reset by a mid-session
rebuild; once at least one frame has been recorded before the rebuild
the counter is nonzero, so the first frame recorded after the rebuild
transitions the freshly recreated capture-resolution and input color
images from transfer-source respectively shader-read-only (an assumed
previously-used layout) rather than from undefined; and the
undefined-layout special case applies exactly when no frame of the
whole session has been recorded yet (frame index 0). -/
theorem c10_frame_counter_survives_rebuild
    (tr : List SessionOp) (h : SessionOp.recordFrame ∈ tr) :
    frameCountAfter (tr ++ [SessionOp.rebuildSwap]) = frameCountAfter tr ∧
    0 < frameCountAfter tr ∧
    capture_old_layout (frameCountAfter (tr ++ [SessionOp.rebuildSwap]))
      = VkImageLayout.transferSrcOptimal ∧
    input_old_layout (frameCountAfter (tr ++ [SessionOp.rebuildSwap]))
      = VkImageLayout.shaderReadOnlyOptimal ∧
    (∀ tr' : List SessionOp,
      capture_old_layout (frameCountAfter tr') = VkImageLayout.undefined
        ↔ SessionOp.recordFrame ∉ tr') := by
  have hpos : 0 < frameCountAfter tr := by
    rw [frameCountAfter_eq_count]
    exact List.count_pos_iff.mpr h
  have hne : frameCountAfter (tr ++ [SessionOp.rebuildSwap]) ≠ 0 := by
    rw [frameCountAfter_append_rebuild]
    omega
  refine ⟨frameCountAfter_append_rebuild tr, hpos, ?_, ?_, ?_⟩
  · simp [capture_old_layout, hne]
  · simp [input_old_layout, hne]
  · intro tr'
    constructor
    · intro hc hmem
      have : 0 < frameCountAfter tr' := by
        rw [frameCountAfter_eq_count]
        exact List.count_pos_iff.mpr hmem
      simp [capture_old_layout, Nat.pos_iff_ne_zero.mp this] at hc
    · intro hmem
      have : frameCountAfter tr' = 0 := by
        rw [frameCountAfter_eq_count]
        exact List.count_eq_zero.mpr hmem
      simp [capture_old_layout, this]

/-- Witness for C10 at the trace consisting of one recorded frame
followed by a rebuild. -/
theorem c10_witness :
    SessionOp.recordFrame ∈ [SessionOp.recordFrame] ∧
    frameCountAfter ([SessionOp.recordFrame] ++ [SessionOp.rebuildSwap])
      = frameCountAfter [SessionOp.recordFrame] ∧
    capture_old_layout (frameCountAfter ([SessionOp.recordFrame] ++ [SessionOp.rebuildSwap]))
      = VkImageLayout.transferSrcOptimal := by
  have h := c10_frame_counter_survives_rebuild [SessionOp.recordFrame] (by decide)
  exact ⟨by decide, h.1, h.2.2.1⟩

/-! ### Theorems about ingest (upload_capture_to_staging) -/

theorem rowsCopy_succ (src : Nat → Nat) (d s cnt m : Nat) :
    rowsCopy src d s cnt (m + 1) =
      memcpyBytes (rowsCopy src d s cnt m) src (m * d) (m * s) cnt := by
  unfold rowsCopy
  rw [List.range_succ, List.foldl_append, List.foldl_cons, List.foldl_nil]

theorem rowsCopy_apply (src : Nat → Nat) (d s cnt : Nat) (hcnt : cnt ≤ d) (n i : Nat) :
    rowsCopy src d s cnt n i =
      if i / d < n ∧ i % d < cnt then src ((i / d) * s + i % d) else 0 := by
  induction n with
  | zero => simp [rowsCopy]
  | succ m ih =>
    rw [rowsCopy_succ]
    unfold memcpyBytes
    by_cases hA : m * d ≤ i ∧ i < m * d + cnt
    · have hq : i / d = m := by
        refine Nat.div_eq_of_lt_le hA.1 ?_
        have := hA.2
        rw [Nat.succ_mul]
        omega
      have hmod := Nat.div_add_mod i d
      rw [hq, Nat.mul_comm] at hmod
      have hr : i % d = i - m * d := by omega
      have hrc : i % d < cnt := by omega
      rw [if_pos hA, if_pos ⟨by omega, hrc⟩, hq, hr]
    · rw [if_neg hA, ih]
      have hmod := Nat.div_add_mod i d
      by_cases h1 : i / d < m ∧ i % d < cnt
      · rw [if_pos h1, if_pos ⟨Nat.lt_succ_of_lt h1.1, h1.2⟩]
      · have h2 : ¬ (i / d < m + 1 ∧ i % d < cnt) := by
          rintro ⟨hlt, hc⟩
          rcases Nat.lt_succ_iff_lt_or_eq.mp hlt with h | h
          · exact h1 ⟨h, hc⟩
          · apply hA
            rw [h, Nat.mul_comm] at hmod
            constructor <;> omega
        rw [if_neg h1, if_neg h2]

/-- C4: for every capture extent (capW, capH) and every snapshot, ingest
writes exactly min(capW, snapshot width) columns of min(capH, snapshot
height) rows of snapshot pixel data into the staging buffer at a row
stride of 4 * capW (derived from the capture extent), zero-fills every
byte outside that region, and every source byte it depends on lies inside
the snapshot's own rows (offset y * bytes_per_line + x with x below
4 * width ≤ bytes_per_line, hence below height * bytes_per_line). -/
theorem c4_ingest_writes_min_rows_and_zero_fills
    (capW capH : Nat) (img : XImageM)
    (hstride : 4 * img.width ≤ img.bytesPerLine) :
    (∀ i, upload_capture_to_staging capW capH img i =
      if i / (capW * 4) < min capH img.height ∧ i % (capW * 4) < min capW img.width * 4
      then img.data ((i / (capW * 4)) * img.bytesPerLine + i % (capW * 4))
      else 0)
    ∧ (∀ y x, y < min capH img.height → x < min capW img.width * 4 →
        y * img.bytesPerLine + x < img.height * img.bytesPerLine) := by
  constructor
  · intro i
    have hcnt : min capW img.width * 4 ≤ capW * 4 :=
      Nat.mul_le_mul_right _ (Nat.min_le_left _ _)
    exact rowsCopy_apply img.data (capW * 4) img.bytesPerLine _ hcnt _ i
  · intro y x hy hx
    have h1 : y + 1 ≤ img.height := lt_of_lt_of_le hy (Nat.min_le_right _ _)
    have h2 : x < img.bytesPerLine := by
      have hxw : x < img.width * 4 :=
        lt_of_lt_of_le hx (Nat.mul_le_mul_right _ (Nat.min_le_right _ _))
      have : img.width * 4 = 4 * img.width := Nat.mul_comm _ _
      omega
    calc y * img.bytesPerLine + x
        < (y + 1) * img.bytesPerLine := by rw [Nat.succ_mul]; omega
      _ ≤ img.height * img.bytesPerLine := Nat.mul_le_mul_right _ h1

/-- Witness for C4: capture extent 2x2 against a 1x3 snapshot with stride 8;
byte 0 of the staging buffer holds the snapshot's first byte and byte 4
(outside the clamped min-region) is zero-filled. -/
theorem c4_witness :
    (4 * (1:Nat) ≤ 8) ∧
    upload_capture_to_staging 2 2 ⟨1, 3, 8, 32, fun o => o + 1⟩ 0 = 1 ∧
    upload_capture_to_staging 2 2 ⟨1, 3, 8, 32, fun o => o + 1⟩ 4 = 0 := by
  have h := c4_ingest_writes_min_rows_and_zero_fills 2 2
    ⟨1, 3, 8, 32, fun o => o + 1⟩ (by decide)
  refine ⟨by decide, ?_, ?_⟩
  · have h0 := h.1 0
    norm_num at h0
    exact h0
  · have h4 := h.1 4
    norm_num at h4
    exact h4

/-! ### Theorems about transition_image_layout -/

/-- C9: for every (oldLayout, newLayout) pair outside the six handled
pairs, transition_image_layout does not fail or signal anything: it emits
a barrier with zero source and destination access masks and all-commands
source and destination pipeline stages. -/
theorem c9_unhandled_transition_silent_fallback
    (oldLayout newLayout : VkImageLayout)
    (h : ¬ handledTransition oldLayout newLayout) :
    transition_image_layout oldLayout newLayout =
      ⟨0, 0, VK_PIPELINE_STAGE_ALL_COMMANDS_BIT, VK_PIPELINE_STAGE_ALL_COMMANDS_BIT⟩ := by
  revert h
  revert oldLayout newLayout
  decide

/-- Witness for C9: the general to presentSrcKHR transition (which the
program never needs) is unhandled and falls back to the silent default. -/
theorem c9_witness :
    ¬ handledTransition .general .presentSrcKHR ∧
    transition_image_layout .general .presentSrcKHR =
      ⟨0, 0, VK_PIPELINE_STAGE_ALL_COMMANDS_BIT, VK_PIPELINE_STAGE_ALL_COMMANDS_BIT⟩ :=
  ⟨by decide, c9_unhandled_transition_silent_fallback _ _ (by decide)⟩

end LSFL
